import Mathlib

/-!
Verification of the Teachable extractor (src/yt_dlp/extractor/teachable.py).

The control flow, string patterns and data handling of the extractor are
embedded as executable Lean definitions.  Library helpers that do not live in
the source file under scrutiny (network fetches, the HTML helpers from
yt_dlp/utils and yt_dlp/extractor/common) are modelled as oracle functions
carried in environment structures; the regular expressions that appear
literally inside teachable.py are implemented as concrete decidable matchers
on character lists, following Python `re.search`/`re.match` existence
semantics.
-/

namespace Teachable

/-- The double-quote character, written via its code point. -/
def qD : Char := Char.ofNat 34

/-- The single-quote character, written via its code point. -/
def qS : Char := Char.ofNat 39

/-- One-character string holding a double quote. -/
def qDs : String := String.mk [qD]

/-- One-character string holding a single quote. -/
def qSs : String := String.mk [qS]

/-- Python regex `\s` on the ASCII range: space, tab, newline, carriage
return, vertical tab, form feed. -/
def isWs (c : Char) : Bool :=
  c = ' ' || c = '\t' || c = '\n' || c = '\r' || c = Char.ofNat 11 || c = Char.ofNat 12

/-- Python regex `\w` on the ASCII range: letters, digits, underscore. -/
def isWordChar (c : Char) : Bool := c.isAlphanum || c = '_'

/-- Drop a literal from the front of a list of characters, returning the
remainder on success. -/
def dropLit : List Char → List Char → Option (List Char)
  | [], l => some l
  | _ :: _, [] => none
  | c :: cs, d :: l => if c = d then dropLit cs l else none

/-- Substring test (Python `pat in s` / `re.search` on a literal pattern). -/
def isSub (pat : List Char) : List Char → Bool
  | [] => pat.isEmpty
  | l@(_ :: rest) => (dropLit pat l).isSome || isSub pat rest

/-- Match `\s*` followed by a literal at the head of the input. -/
def wsThenLit (lit : List Char) : List Char → Bool
  | [] => lit.isEmpty
  | l@(c :: rest) => (dropLit lit l).isSome || (isWs c && wsThenLit lit rest)

/-- Search for `>` followed by `\s*` and a literal (regex `>\s*lit`). -/
def gtWsLitSearch (lit : List Char) : List Char → Bool
  | [] => false
  | c :: rest => (c = '>' && wsThenLit lit rest) || gtWsLitSearch lit rest

/-- Match `\s*<` at the head of the input. -/
def wsThenLt : List Char → Bool
  | [] => false
  | c :: rest => c = '<' || (isWs c && wsThenLt rest)

/-- Match `[Oo]ut\s*<` at the head of the input. -/
def outTail : List Char → Bool
  | c :: 'u' :: 't' :: rest => (c = 'O' || c = 'o') && wsThenLt rest
  | _ => false

/-- Match `\s+[Oo]ut\s*<` at the head of the input. -/
def wsPlusOut : List Char → Bool
  | [] => false
  | c :: rest => isWs c && (outTail rest || wsPlusOut rest)

/-- Match the source pattern `Log\s+[Oo]ut\s*<` at the head of the input. -/
def logOutAt (l : List Char) : Bool :=
  match dropLit ("Log".toList) l with
  | some r => wsPlusOut r
  | none => false

/-- Search the whole input for `Log\s+[Oo]ut\s*<`. -/
def logOutSearch : List Char → Bool
  | [] => false
  | l@(_ :: rest) => logOutAt l || logOutSearch rest

/-- Match `href=["\']/sign_out` at the head of the input. -/
def hrefSignOutAt (l : List Char) : Bool :=
  (dropLit (("href=" ++ qDs ++ "/sign_out").toList) l).isSome ||
  (dropLit (("href=" ++ qSs ++ "/sign_out").toList) l).isSome

/-- After an opening `<a`, consume one or more non-`>` characters and then
match `\bhref=["\']/sign_out`; the word boundary requires the character
immediately before `href` to be a non-word character. -/
def signOutGap : List Char → Bool
  | [] => false
  | c :: rest =>
    decide (c ≠ '>') && ((!(isWordChar c) && hrefSignOutAt rest) || signOutGap rest)

/-- Search the whole input for `<a[^>]+\bhref=["\']/sign_out`. -/
def signOutSearch : List Char → Bool
  | [] => false
  | l@(_ :: rest) =>
    (match dropLit ("<a".toList) l with
     | some r => signOutGap r
     | none => false) || signOutSearch rest

/-- The `is_logged` predicate of `TeachableBaseIE._login`: any of
`class=["\']user-signout`, `<a[^>]+\bhref=["\']/sign_out`,
`Log\s+[Oo]ut\s*<` occurs in the page. -/
def is_logged (webpage : String) : Bool :=
  isSub (("class=" ++ qDs ++ "user-signout").toList) webpage.toList ||
  isSub (("class=" ++ qSs ++ "user-signout").toList) webpage.toList ||
  signOutSearch webpage.toList ||
  logOutSearch webpage.toList

/-- The literal privacy-policy test of `_login`:
`'>I accept the new Privacy Policy<' in response`. -/
def hasPrivacyPrompt (response : String) : Bool :=
  isSub ((">I accept the new Privacy Policy<").toList) response.toList

/-- The locked-content scan of `TeachableIE._create_hotmart_url`: any of the
five marker patterns occurs in the page. -/
def lockedAny (webpage : String) : Bool :=
  isSub (("class=" ++ qDs ++ "lecture-contents-locked").toList) webpage.toList ||
  isSub (("class=" ++ qSs ++ "lecture-contents-locked").toList) webpage.toList ||
  gtWsLitSearch (("Lecture contents locked").toList) webpage.toList ||
  isSub (("id=" ++ qDs ++ "lecture-locked").toList) webpage.toList ||
  isSub (("id=" ++ qSs ++ "lecture-locked").toList) webpage.toList ||
  isSub (("class=" ++ qDs ++ "lesson-locked").toList) webpage.toList ||
  isSub (("class=" ++ qDs ++ "inner-lesson-locked").toList) webpage.toList ||
  isSub (("class=" ++ qSs ++ "lesson-locked").toList) webpage.toList ||
  isSub (("class=" ++ qSs ++ "inner-lesson-locked").toList) webpage.toList ||
  isSub ((">LESSON LOCKED<").toList) webpage.toList

/-- Two decimal digits at the head of the input. -/
def twoDigits : List Char → Bool
  | a :: b :: _ => a.isDigit && b.isDigit
  | _ => false

/-- Match the duration pattern `\d{1,2}:\d{2}` at the head of the input
(either two digits or one digit before the colon). -/
def durAt : List Char → Bool
  | a :: rest =>
    a.isDigit &&
      (match rest with
       | b :: rest2 =>
         (b.isDigit &&
           (match rest2 with
            | c :: rest3 => c = ':' && twoDigits rest3
            | [] => false)) ||
         (b = ':' && twoDigits rest2)
       | [] => false)
  | [] => false

/-- Search the whole input for `\d{1,2}:\d{2}` (re.search semantics). -/
def searchDur : List Char → Bool
  | [] => false
  | l@(_ :: rest) => durAt l || searchDur rest

/-- Match `href=(["\'])(?P<url>(?:(?!\1).)+)\1` at the head of the input and
return the captured url.  The capture is the maximal run of characters
different from the opening quote; it must be non-empty and followed by the
closing quote. -/
def hrefAt (l : List Char) : Option (List Char) :=
  match dropLit ("href=".toList) l with
  | none => none
  | some [] => none
  | some (q :: r) =>
    if q = qD || q = qS then
      let cap := r.takeWhile (fun c => c ≠ q)
      if cap.isEmpty then none
      else if (r.drop cap.length).head? = some q then some cap else none
    else none

/-- After an opening `<a`, consume one or more non-`>` characters (greedy,
preferring the longest run as Python backtracking does) and then match the
`href` part, returning the captured url. -/
def gapThenHref : List Char → Option (List Char)
  | [] => none
  | c :: rest =>
    if c = '>' then none
    else
      match gapThenHref rest with
      | some cap => some cap
      | none => hrefAt rest

/-- Search the input for `<a[^>]+href=(["\'])(?P<url>(?:(?!\1).)+)\1` and
return the url captured by the leftmost match. -/
def searchHrefList : List Char → Option (List Char)
  | [] => none
  | l@(_ :: rest) =>
    match dropLit ("<a".toList) l with
    | some r =>
      (match gapThenHref r with
       | some cap => some cap
       | none => searchHrefList rest)
    | none => searchHrefList rest

/-- The anchor-href extraction used on section items in
`TeachableCourseIE._real_extract` (first match wins, default None). -/
def searchHref (s : String) : Option String :=
  (searchHrefList s.toList).map String.mk

/-- Maximal run of decimal digits at the head of the input. -/
def digitsHead : List Char → List Char
  | c :: rest => if c.isDigit then c :: digitsHead rest else []
  | [] => []

/-- Search for `/lectures/(\d+)` and return the digits captured by the
leftmost match. -/
def lectureIdScan : List Char → Option (List Char)
  | [] => none
  | l@(_ :: rest) =>
    match dropLit ("/lectures/".toList) l with
    | some r =>
      let ds := digitsHead r
      if ds.isEmpty then lectureIdScan rest else some ds
    | none => lectureIdScan rest

/-- The lecture-id extraction
`self._search_regex(r'/lectures/(\d+)', lecture_url, default=None)`. -/
def lectureIdOf (lecture_url : String) : Option String :=
  (lectureIdScan lecture_url.toList).map String.mk

/-- The known-site table `TeachableBaseIE._SITES` (hostname, netrc key). -/
def SITES : List (String × String) :=
  [("v1.upskillcourses.com", "upskill"),
   ("gns3.teachable.com", "gns3"),
   ("academyhacker.com", "academyhacker"),
   ("stackskills.com", "stackskills"),
   ("market.saleshacker.com", "saleshacker"),
   ("learnability.org", "learnability"),
   ("edurila.com", "edurila"),
   ("courses.workitdaily.com", "workitdaily")]

/-- The escape marker `TeachableBaseIE._URL_PREFIX`. -/
def urlMarkStr : String := "teachable:"

/-- Consume `https?://` from the head of the input. -/
def afterHttpSlashes (l : List Char) : Option (List Char) :=
  match dropLit ("http".toList) l with
  | none => none
  | some r =>
    match dropLit (("s://").toList) r with
    | some r2 => some r2
    | none => dropLit ("://".toList) r

/-- Consume one or more non-`/` characters (the `[^/]+` host part) and then
try the path matcher at every possible split. -/
def hostThenPath (path : List Char → Bool) : List Char → Bool
  | [] => false
  | c :: rest => decide (c ≠ '/') && (path rest || hostThenPath path rest)

/-- Match `/lectures/` followed by at least one digit. -/
def lecturesTail (l : List Char) : Bool :=
  match dropLit ("/lectures/".toList) l with
  | some (d :: _) => d.isDigit
  | _ => false

/-- Consume the `[^/]+` course slug and then match `/lectures/\d+`. -/
def slugThenLectures : List Char → Bool
  | [] => false
  | c :: rest => decide (c ≠ '/') && (lecturesTail rest || slugThenLectures rest)

/-- Match the lecture path shape `/courses/[^/]+/lectures/(?P<id>\d+)`. -/
def lecturePath (l : List Char) : Bool :=
  match dropLit ("/courses/".toList) l with
  | some r => slugThenLectures r
  | none => false

/-- A course id must start with one character outside `/?#&`
(the `[^/?#&]+` group). -/
def courseIdHead : List Char → Bool
  | c :: _ => decide (c ≠ '/') && decide (c ≠ '?') && decide (c ≠ '#') && decide (c ≠ '&')
  | [] => false

/-- Match `(?:enrolled/)?(?P<id>[^/?#&]+)`, trying both the branch that
consumes `enrolled/` and the branch that does not. -/
def afterEnrolled (l : List Char) : Bool :=
  (match dropLit ("enrolled/".toList) l with
   | some r => courseIdHead r
   | none => false) || courseIdHead l

/-- Match the course path shape `/(?:courses|p)/(?:enrolled/)?(?P<id>[^/?#&]+)`. -/
def coursePath (l : List Char) : Bool :=
  (match dropLit ("/courses/".toList) l with
   | some r => afterEnrolled r
   | none => false) ||
  (match dropLit ("/p/".toList) l with
   | some r => afterEnrolled r
   | none => false)

/-- Match one of the enumerated site hostnames followed by the path. -/
def siteThenPath (path : List Char → Bool) (l : List Char) : Bool :=
  SITES.any (fun s =>
    match dropLit s.1.toList l with
    | some r => path r
    | none => false)

/-- The direct alternative `https?://(?:www\.)?(?P<site>site1|…)` followed by
the path, trying the optional `www.` both ways. -/
def directMatch (path : List Char → Bool) (l : List Char) : Bool :=
  match afterHttpSlashes l with
  | none => false
  | some r =>
    (match dropLit ("www.".toList) r with
     | some r2 => siteThenPath path r2
     | none => false) || siteThenPath path r

/-- The prefixed alternative `teachable:https?://(?P<site_t>[^/]+)` followed
by the path. -/
def escapeMatch (path : List Char → Bool) (l : List Char) : Bool :=
  match dropLit (urlMarkStr.toList) l with
  | some r =>
    (match afterHttpSlashes r with
     | some r2 => hostThenPath path r2
     | none => false)
  | none => false

/-- `TeachableIE.suitable`: the url matches `TeachableIE._VALID_URL`
(re.match, anchored at the start). -/
def lectureSuitable (url : String) : Bool :=
  escapeMatch lecturePath url.toList || directMatch lecturePath url.toList

/-- The raw match of `TeachableCourseIE._VALID_URL` against the url. -/
def courseMatches (url : String) : Bool :=
  escapeMatch coursePath url.toList || directMatch coursePath url.toList

/-- `TeachableCourseIE.suitable`: `False if TeachableIE.suitable(url) else
super().suitable(url)`. -/
def courseSuitable (url : String) : Bool :=
  !(lectureSuitable url) && courseMatches url

/-- The netrc namespace used by `_login`:
`self._SITES.get(site, site)`. -/
def netrcMachineOf (site : String) : String :=
  (List.lookup site SITES).getD site

/-- Modelled from the spec: the external collaborators of the login handshake
that are not part of teachable.py — credential lookup (CredentialLookup of
spec section 6), the blocking page fetches (Fetch of spec section 6, with the
sign-in fetch returning the body together with its final post-redirect url),
and the HTML helpers `_hidden_inputs`, `_search_regex` on the form action,
`urljoin`, `get_element_by_class` and `clean_html`, which live in
yt_dlp/extractor/common.py and yt_dlp/utils and are outside the source under
scrutiny.  They are carried as opaque-to-the-proof oracle functions and the
theorems quantify over them. -/
structure Env where
  getLoginInfo : String → Option (String × String)
  fetchSignInPage : String → String × String
  hiddenInputs : String → List (String × String)
  searchFormAction : String → Option String
  urljoin : String → String → String
  fetchPost : String → List (String × String) → String
  getElementByClass : String → String → Option String
  cleanHtml : String → String

/-- Python dict update on an association list: replace the value of an
existing key, otherwise append the binding. -/
def dictUpdate (form : List (String × String)) (k v : String) : List (String × String) :=
  if (List.lookup k form).isSome then
    form.map (fun p => if p.1 = k then (k, v) else p)
  else form ++ [(k, v)]

/-- The login form of `_login`: the hidden inputs of the sign-in page,
updated with the `email` and `password` fields. -/
def loginFormOf (env : Env) (login_page username password : String) :
    List (String × String) :=
  dictUpdate (dictUpdate (env.hiddenInputs login_page) ("email") username)
    ("password") password

/-- The POST target of `_login`: the form action found in the sign-in page
(default the login url), made absolute against the login url when it does not
start with `http`. -/
def postUrlOf (env : Env) (login_page login_url : String) : String :=
  let p := (env.searchFormAction login_page).getD login_url
  if p.startsWith ("http") then p else env.urljoin login_url p

/-- The body of the login POST response. -/
def responseOf (env : Env) (site username password : String) : String :=
  env.fetchPost (postUrlOf env (env.fetchSignInPage site).1 (env.fetchSignInPage site).2)
    (loginFormOf env (env.fetchSignInPage site).1 username password)

/-- An observable side effect of `_login`: the netrc credential lookup, the
sign-in page download, or the login POST. -/
inductive NetEvent where
  | credLookup (machine : String)
  | fetchSignIn (site : String)
  | postLogin (url : String)
  deriving DecidableEq, Repr

/-- The error raised by `_login` (all are `ExtractorError`s in the source;
the constructors record which branch raised). -/
inductive LoginError where
  | privacyPolicy (site : String)
  | authFlashError (msg : String)
  | genericLoginFailed
  deriving DecidableEq, Repr

instance : DecidableEq (Except LoginError Unit) := fun a b =>
  match a, b with
  | .ok (), .ok () => .isTrue rfl
  | .error x, .error y => if h : x = y then .isTrue (by rw [h]) else .isFalse (by simp [h])
  | .ok _, .error _ => .isFalse (by simp)
  | .error _, .ok _ => .isFalse (by simp)

/-- Result of a `_login` call: the raised error if any, the value of
`self._logged_in` afterwards, and the side effects performed, in order. -/
structure LoginOutcome where
  result : Except LoginError Unit
  logged_in : Bool
  events : List NetEvent
  deriving DecidableEq, Repr

/-- The three side effects of a full handshake, in order. -/
def handshakeEvents (env : Env) (site : String) : List NetEvent :=
  [.credLookup (netrcMachineOf site), .fetchSignIn site,
   .postLogin (postUrlOf env (env.fetchSignInPage site).1 (env.fetchSignInPage site).2)]

/-- `TeachableBaseIE._login` as a state transition on the instance flag
`self._logged_in` (initialised to `false` by `_real_initialize`).  The branch
structure follows the source: early return when the flag is set; early return
when no credentials are found; early success when the sign-in page already
shows logged-in markers; otherwise POST the form, then in order check the
privacy-policy prompt, the logged-in markers, and the flash error element. -/
def login (env : Env) (logged_in : Bool) (site : String) : LoginOutcome :=
  if logged_in then ⟨.ok (), logged_in, []⟩
  else
    match env.getLoginInfo (netrcMachineOf site) with
    | none => ⟨.ok (), logged_in, [.credLookup (netrcMachineOf site)]⟩
    | some (username, password) =>
      if is_logged (env.fetchSignInPage site).1 then
        ⟨.ok (), true, [.credLookup (netrcMachineOf site), .fetchSignIn site]⟩
      else if hasPrivacyPrompt (responseOf env site username password) then
        ⟨.error (.privacyPolicy site), logged_in, handshakeEvents env site⟩
      else if is_logged (responseOf env site username password) then
        ⟨.ok (), true, handshakeEvents env site⟩
      else
        match env.getElementByClass ("auth-flash-error") (responseOf env site username password) with
        | some message =>
          ⟨.error (.authFlashError (env.cleanHtml message)), logged_in, handshakeEvents env site⟩
        | none => ⟨.error .genericLoginFailed, logged_in, handshakeEvents env site⟩

/-- Whether an event is a network login attempt (the POST). -/
def isPost : NetEvent → Bool
  | .postLogin _ => true
  | _ => false

/-- Number of network login attempts in an event trace. -/
def postCount (evs : List NetEvent) : Nat := (evs.filter isPost).length

/-- The section-title accumulation loop of `TeachableIE._real_extract`
(lines 214-221): fold over the cleaned titles in document order; on a falsy
(missing or empty) cleaned title, reset the accumulator to `[]` and break out
of the loop.  `clean` models `strip_or_none(clean_html(s))` applied to each
raw findall capture, both helpers living in yt_dlp/utils. -/
def collectSectionsAux (clean : String → Option String) (acc : List String) :
    List String → List String
  | [] => acc
  | s :: rest =>
    match clean s with
    | none => []
    | some t => if t = "" then [] else collectSectionsAux clean (acc ++ [t]) rest

/-- The surviving section-title list computed by the source loop. -/
def collectSections (clean : String → Option String) (raw : List String) : List String :=
  collectSectionsAux clean [] raw

/-- Modelled from the spec: the reference section-title scan as the spec
words it — "if any section title is empty, discard all titles collected so
far and restart the scan".  The scan keeps going after a falsy title instead
of stopping. -/
def specSectionsAux (clean : String → Option String) (acc : List String) :
    List String → List String
  | [] => acc
  | s :: rest =>
    match clean s with
    | none => specSectionsAux clean [] rest
    | some t =>
      if t = "" then specSectionsAux clean [] rest
      else specSectionsAux clean (acc ++ [t]) rest

/-- Modelled from the spec: the surviving list under the restart semantics. -/
def specSections (clean : String → Option String) (raw : List String) : List String :=
  specSectionsAux clean [] raw

/-- Result of the chapter lookup: the chapter title option, or the IndexError
Python would raise on `sections[chapter_number - 1]` when the index is out of
range. -/
inductive ChapterResult where
  | ok (chapter : Option String)
  | indexError
  deriving DecidableEq, Repr

/-- Python list indexing `l[i]` including negative indices. -/
def pyNth (l : List String) (i : Int) : ChapterResult :=
  if 0 ≤ i then
    match l.get? i.toNat with
    | some s => .ok (some s)
    | none => .indexError
  else if i.natAbs ≤ l.length then
    match l.get? (l.length - i.natAbs) with
    | some s => .ok (some s)
    | none => .indexError
  else .indexError

/-- The chapter-title resolution of `TeachableIE._real_extract` (lines
204-223), given the chapter number extracted from the matching list item
(`none` when the list item or its `data-ss-position` is absent) and the raw
findall captures of the section-title elements in document order:
when a chapter number is present, compute the surviving section list and
return `sections[chapter_number - 1]` when `chapter_number <= len(sections)`,
otherwise leave the chapter at None. -/
def resolveChapter (clean : String → Option String) (rawSections : List String)
    (chapterNumber : Option Nat) : ChapterResult :=
  match chapterNumber with
  | none => .ok none
  | some n =>
    let sections := collectSections clean rawSections
    if n ≤ sections.length then pyNth sections ((n : Int) - 1)
    else .ok none

/-- Modelled from the spec: "`chapterTitle` is the entry at `chapterNumber`
in the final surviving list if `chapterNumber` is within its bounds;
otherwise null", over the restart-semantics surviving list. -/
def resolveChapterSpec (clean : String → Option String) (rawSections : List String)
    (chapterNumber : Option Nat) : Option String :=
  match chapterNumber with
  | none => none
  | some n =>
    if 1 ≤ n then (specSections clean rawSections).get? (n - 1) else none

/-- The JSON payload returned by the provider API
`GET https://<site>/api/v2/hotmart/private_video`. -/
structure HotmartData where
  video_id : String
  signature : String
  teachable_application_key : String
  deriving DecidableEq, Repr

/-- Modelled from the spec: the collaborators of
`TeachableIE._create_hotmart_url` that are outside teachable.py —
`get_element_html_by_class` and `extract_attributes` from yt_dlp/utils, and
the JSON API fetch (`_download_json`, keyed here by site and attachment id). -/
structure LectureEnv where
  getElementHtmlByClass : String → String → Option String
  extractAttributes : String → List (String × String)
  downloadJson : String → String → String → HotmartData

/-- The error raised by `_create_hotmart_url`: the login-required error when
a locked-content marker is present, the generic extraction error when the
container is missing with no marker, or the KeyError Python would raise when
the container lacks `data-attachment-id`. -/
inductive ExtractError where
  | loginRequired (msg : String)
  | extractionFailed (msg : String)
  | missingAttachmentKey
  deriving DecidableEq, Repr

instance : DecidableEq (Except ExtractError String) := fun a b =>
  match a, b with
  | .ok x, .ok y => if h : x = y then .isTrue (by rw [h]) else .isFalse (by simp [h])
  | .error x, .error y => if h : x = y then .isTrue (by rw [h]) else .isFalse (by simp [h])
  | .ok _, .error _ => .isFalse (by simp)
  | .error _, .ok _ => .isFalse (by simp)

/-- `TeachableIE._create_hotmart_url` (lines 152-185): look up the
`hotmart_video_player` container element; when absent, scan the page for the
five locked-content markers and raise login-required when any is found,
otherwise raise the generic extraction error; when present, read the
`data-attachment-id` attribute, exchange it via the provider API, and
template the embed url from the returned video id, signature, and
application key. -/
def createHotmartUrl (env : LectureEnv) (webpage videoId site : String) :
    Except ExtractError String :=
  match env.getElementHtmlByClass ("hotmart_video_player") webpage with
  | none =>
    if lockedAny webpage then .error (.loginRequired ("Lecture contents locked"))
    else .error (.extractionFailed ("Unable to find Hotmart video container"))
  | some el =>
    match List.lookup ("data-attachment-id") (env.extractAttributes el) with
    | none => .error .missingAttachmentKey
    | some attachment_id =>
      let d := env.downloadJson site videoId attachment_id
      .ok ("https://player.hotmart.com/embed/" ++ d.video_id ++
           "?signature=" ++ d.signature ++ "&token=" ++ d.teachable_application_key)

/-- Modelled from the spec: the collaborators of
`TeachableCourseIE._real_extract` outside teachable.py — `urljoin` and
`clean_html` from yt_dlp/utils, and the title extraction
`_html_search_regex(r'<span[^>]+class=["\']lecture-name[^>]+>([^<]+)', li)`
performed by the common-extractor helper. -/
structure CEnv where
  urljoin : String → String → String
  cleanHtml : String → String
  titleOf : String → Option String

/-- One emitted playlist entry (`self.url_result(entry_url,
ie=TeachableIE.ie_key(), video_id=lecture_id, video_title=clean_html(title))`). -/
structure CourseEntry where
  url : String
  ie : String
  videoId : Option String
  videoTitle : Option String
  deriving DecidableEq, Repr

/-- Re-application of the escape marker (lines 302-303): prepend
`teachable:` exactly when the original course url carried it. -/
def applyUrlMark (prefixed : Bool) (u : String) : String :=
  if prefixed then urlMarkStr ++ u else u

/-- The filter of `TeachableCourseIE._real_extract` line 289: an item is
kept only when it contains the `fa-youtube-play` marker or an inline
`\d{1,2}:\d{2}` duration. -/
def hasVideoMarker (li : String) : Bool :=
  isSub (("fa-youtube-play").toList) li.toList || searchDur li.toList

/-- The body of the section-item loop (lines 288-308) for one item: skip the
item when it lacks both video markers, skip it when no anchor href is found,
otherwise build the entry from the href resolved against the site base url,
with the escape marker re-applied when the course url was prefixed. -/
def entryOf (env : CEnv) (site : String) (prefixed : Bool) (li : String) :
    Option CourseEntry :=
  if hasVideoMarker li then
    match searchHref li with
    | none => none
    | some lecture_url =>
      some ⟨applyUrlMark prefixed (env.urljoin ("https://" ++ site ++ "/") lecture_url),
            "Teachable", lectureIdOf lecture_url, (env.titleOf li).map env.cleanHtml⟩
  else none

/-- The ordered entry list produced by `TeachableCourseIE._real_extract`
from the section items found in the course page, in document order. -/
def courseEntries (env : CEnv) (site : String) (prefixed : Bool)
    (items : List String) : List CourseEntry :=
  items.filterMap (entryOf env site prefixed)

/-- Identity-like cleaning oracle for concrete fixtures: the raw captures
are already clean, so `strip_or_none(clean_html(s))` is `s` itself (and the
empty capture stays empty, hence falsy). -/
def cid : String → Option String := fun s => some s

/-- The fixture title sequence of the spec: `["Welcome", "", "Advanced"]`. -/
def raw1 : List String := ["Welcome", "", "Advanced"]

/-- A sign-in page that already shows a logged-in marker
(`class="user-signout`). -/
def pageSignout : String := "top bar class=" ++ qDs ++ "user-signout link"

/-- A sign-in page with no logged-in marker. -/
def plainSignin : String := "please sign in"

/-- A POST response holding the privacy-policy prompt together with a
logged-in marker. -/
def rsp4 : String :=
  ">I accept the new Privacy Policy< and class=" ++ qDs ++ "user-signout"

/-- A POST response with no recognisable marker at all. -/
def rsp6 : String := "wrong password"

/-- Fixture environment whose sign-in page is already logged in. -/
def env2 : Env :=
  ⟨fun _ => some ("u", "p"), fun _ => (pageSignout, "https://a.example/sign_in"),
   fun _ => [], fun _ => none, fun b p => b ++ p, fun _ _ => "",
   fun _ _ => none, fun s => s⟩

/-- Fixture environment whose POST response shows the privacy prompt, a
logged-in marker, and a flash error element at once. -/
def env4 : Env :=
  ⟨fun _ => some ("u", "p"), fun _ => (plainSignin, "https://x.example/sign_in"),
   fun _ => [], fun _ => none, fun b p => b ++ p, fun _ _ => rsp4,
   fun _ _ => some ("Invalid email or password"), fun s => s⟩

/-- Fixture environment whose login always fails with no recognisable
element. -/
def env6 : Env :=
  ⟨fun _ => some ("u", "p"), fun _ => (plainSignin, "https://s.example/sign_in"),
   fun _ => [], fun _ => none, fun b p => b ++ p, fun _ _ => rsp6,
   fun _ _ => none, fun s => s⟩

/-- Fixture environment with no stored credentials. -/
def env6b : Env :=
  ⟨fun _ => none, fun _ => (plainSignin, "https://s.example/sign_in"),
   fun _ => [], fun _ => none, fun b p => b ++ p, fun _ _ => "",
   fun _ _ => none, fun s => s⟩

/-- Fixture lecture environment in which the Hotmart container is absent. -/
def lenv0 : LectureEnv :=
  ⟨fun _ _ => none, fun _ => [], fun _ _ _ => ⟨"", "", ""⟩⟩

/-- A locked lecture page (`id="lecture-locked` marker, no container). -/
def lockedPage : String :=
  "<div id=" ++ qDs ++ "lecture-locked" ++ qDs ++ ">no access</div>"

/-- A lecture page with neither container nor locked marker. -/
def plainPage : String := "just a page"

/-- Fixture course environment: joining is concatenation and cleaning is the
identity; no nested lecture-name span is found. -/
def cenv0 : CEnv := ⟨fun b p => b ++ p, fun s => s, fun _ => none⟩

/-- Section item with a play icon and an anchor to lecture 101. -/
def liA : String :=
  "<li class=" ++ qDs ++ "section-item" ++ qDs ++ "><span>fa-youtube-play</span><a href=" ++
  qDs ++ "/courses/c1/lectures/101" ++ qDs ++ ">L1</a></li>"

/-- Section item with a play icon and an anchor to lecture 102. -/
def liA2 : String :=
  "<li class=" ++ qDs ++ "section-item" ++ qDs ++ "><span>fa-youtube-play</span><a href=" ++
  qDs ++ "/courses/c1/lectures/102" ++ qDs ++ ">L2</a></li>"

/-- Section item with a play icon and an anchor to lecture 103. -/
def liA3 : String :=
  "<li class=" ++ qDs ++ "section-item" ++ qDs ++ "><span>fa-youtube-play</span><a href=" ++
  qDs ++ "/courses/c1/lectures/103" ++ qDs ++ ">L3</a></li>"

/-- Section item with a play icon marker but no anchor at all. -/
def liB : String :=
  "<li class=" ++ qDs ++ "section-item" ++ qDs ++ "><span>fa-youtube-play</span> locked item</li>"

/-- Section item with neither play icon nor duration: a quiz. -/
def liC : String :=
  "<li class=" ++ qDs ++ "section-item" ++ qDs ++ ">Quiz one</li>"

/-- Section item with neither play icon nor duration: a text section. -/
def liD : String :=
  "<li class=" ++ qDs ++ "section-item" ++ qDs ++ ">Text section</li>"

/-- Five section items of which two (`liC`, `liD`) lack both markers and one
(`liB`) carries a marker but no anchor. -/
def items5 : List String := [liA, liB, liC, liA2, liD]

/-- Five section items of which two lack both markers and every
marker-bearing one has an anchor. -/
def itemsW5 : List String := [liA, liC, liA2, liD, liA3]

/-- The entry produced from `liA` under a prefixed course url in `cenv0`. -/
def entryA : CourseEntry :=
  ⟨"teachable:https://x.example//courses/c1/lectures/101", "Teachable", some ("101"), none⟩

/-- Once the instance flag is set, `_login` returns immediately with no side
effect. -/
theorem login_of_flag (env : Env) (site : String) :
    login env true site = ⟨.ok (), true, []⟩ := rfl

/-- Sanity: the first lecture test url of the source matches the lecture
shape. -/
theorem lectureSuitable_gns3 :
    lectureSuitable ("https://gns3.teachable.com/courses/gns3-certified-associate/lectures/6842364") = true := by
  decide

/-- Sanity: the prefixed lecture test url of the source matches the lecture
shape. -/
theorem lectureSuitable_escape_test :
    lectureSuitable ("teachable:https://v1.upskillcourses.com/courses/essential-web-developer-course/lectures/1747100") = true := by
  decide

/-- Sanity: a plain course url is classified as a course. -/
theorem courseSuitable_upskill :
    courseSuitable ("http://v1.upskillcourses.com/courses/119763/") = true := by
  decide

/-- Sanity: an enrolled course url is classified as a course. -/
theorem courseSuitable_enrolled :
    courseSuitable ("https://gns3.teachable.com/courses/enrolled/423415") = true := by
  decide

/-- Sanity: a prefixed `/p/` course url is classified as a course. -/
theorem courseSuitable_escape_p :
    courseSuitable ("teachable:https://learn.vrdev.school/p/gear-vr-developer-mini") = true := by
  decide

/-- C5: lecture and course url classification is mutually exclusive — the
course matcher returns False on any url the lecture matcher accepts, so no
url is classified as both kinds. -/
theorem c5_mutual_exclusive (url : String) :
    (lectureSuitable url && courseSuitable url) = false := by
  unfold courseSuitable
  cases h : lectureSuitable url <;> simp [h]

/-- C1 counterexample: with section titles `["Welcome", "", "Advanced"]` and
`chapterNumber = 1`, the spec's restart-on-empty reference resolution yields
`"Advanced"`, but the code discards everything and stops at the empty title,
yielding no chapter title. -/
theorem c1_counterexample :
    resolveChapterSpec cid raw1 (some 1) = some ("Advanced") ∧
    resolveChapter cid raw1 (some 1) = .ok none := by
  decide

/-- A list's element at index `length - 1` is its last element (and both
sides are none on the empty list). -/
theorem get?_len_sub_one (l : List String) : l.get? (l.length - 1) = l.getLast? := by
  induction l with
  | nil => rfl
  | cons a t ih =>
    cases t with
    | nil => rfl
    | cons b u =>
      have h1 : (a :: b :: u).length - 1 = u.length + 1 := by simp
      rw [h1, List.get?_cons_succ, List.getLast?_cons_cons]
      simpa using ih

/-- Sanity: at `chapter_number = 0` with a surviving nonempty list the code
returns the last title (Python's `sections[-1]`). -/
theorem resolveChapter_zero_nonempty :
    resolveChapter cid (["Welcome", "Setup"]) (some 0) = .ok (some ("Setup")) := by
  decide

/-- Sanity: at `chapter_number = 0` with the broken fixture (empty surviving
list) the code hits `sections[-1]` on an empty list, an IndexError. -/
theorem resolveChapter_zero_broken :
    resolveChapter cid raw1 (some 0) = .indexError := by
  decide

/-- Sanity: the spec's fixture — titles `["Welcome", "", "Advanced"]` with
`chapterNumber = 3` yield no chapter title. -/
theorem resolveChapter_fixture_three :
    resolveChapter cid raw1 (some 3) = .ok none := by
  decide

/-- C1 amended: on an empty cleaned section title the code discards all
collected titles and stops the scan, so the surviving list is the one of
`collectSections`.  For `chapterNumber ≥ 1`, `chapterTitle` is the entry at
position `chapterNumber` (1-based) of that list when within bounds and null
otherwise; for `chapterNumber = 0` the bounds check always passes and the
code evaluates `sections[-1]` — the last surviving title when the list is
nonempty, and an IndexError on an empty list. -/
theorem c1_amended (clean : String → Option String) (raw : List String) (n : Nat) :
    resolveChapter clean raw (some n) =
      (if 1 ≤ n then .ok ((collectSections clean raw).get? (n - 1))
       else if collectSections clean raw = [] then .indexError
       else .ok ((collectSections clean raw).getLast?)) := by
  have hdef : resolveChapter clean raw (some n) =
      (if n ≤ (collectSections clean raw).length
       then pyNth (collectSections clean raw) ((n : Int) - 1)
       else .ok none) := rfl
  rw [hdef]
  by_cases h1 : 1 ≤ n
  · rw [if_pos h1]
    by_cases hle : n ≤ (collectSections clean raw).length
    · rw [if_pos hle]
      unfold pyNth
      have h0 : (0 : Int) ≤ (n : Int) - 1 := by omega
      rw [if_pos h0]
      have ht : ((n : Int) - 1).toNat = n - 1 := by omega
      rw [ht]
      rcases hq : (collectSections clean raw).get? (n - 1) with _ | s
      · rw [List.get?_eq_none] at hq
        omega
      · rfl
    · rw [if_neg hle]
      rw [List.get?_eq_none.mpr (by omega)]
  · have hn : n = 0 := by omega
    subst hn
    rw [if_neg h1, if_pos (Nat.zero_le _)]
    unfold pyNth
    have hneg : ¬ (0 : Int) ≤ ((0 : Nat) : Int) - 1 := by omega
    rw [if_neg hneg]
    have hab : (((0 : Nat) : Int) - 1).natAbs = 1 := by
      simp
    rw [hab]
    cases hs : collectSections clean raw with
    | nil => simp
    | cons a t =>
      rw [if_pos (by simp), if_neg (by simp)]
      rw [← get?_len_sub_one]
      rcases hq : (a :: t).get? ((a :: t).length - 1) with _ | x
      · rw [List.get?_eq_none] at hq
        simp at hq
      · rfl

/-- C3: when the Hotmart container element is absent, resolution raises the
login-required error exactly when a locked-content marker is present and the
generic extraction error exactly when none is; it never raises the
extraction error while a marker is present. -/
theorem c3_locked_vs_extraction (env : LectureEnv) (webpage videoId site : String)
    (habs : env.getElementHtmlByClass ("hotmart_video_player") webpage = none) :
    (lockedAny webpage = true →
      createHotmartUrl env webpage videoId site =
        .error (.loginRequired ("Lecture contents locked"))) ∧
    (lockedAny webpage = false →
      createHotmartUrl env webpage videoId site =
        .error (.extractionFailed ("Unable to find Hotmart video container"))) ∧
    (lockedAny webpage = true →
      ∀ m, createHotmartUrl env webpage videoId site ≠ .error (.extractionFailed m)) := by
  refine ⟨fun h => ?_, fun h => ?_, fun h m => ?_⟩ <;>
    simp [createHotmartUrl, habs, h]

/-- C3 witness: a locked fixture page fails login-required, a bare fixture
page fails with the generic extraction error. -/
theorem c3_witness :
    lockedAny lockedPage = true ∧
    createHotmartUrl lenv0 lockedPage ("1") ("x.example") =
      .error (.loginRequired ("Lecture contents locked")) ∧
    lockedAny plainPage = false ∧
    createHotmartUrl lenv0 plainPage ("1") ("x.example") =
      .error (.extractionFailed ("Unable to find Hotmart video container")) :=
  ⟨by decide,
   (c3_locked_vs_extraction lenv0 lockedPage ("1") ("x.example") rfl).1 (by decide),
   by decide,
   (c3_locked_vs_extraction lenv0 plainPage ("1") ("x.example") rfl).2.1 (by decide)⟩

/-- C4: whenever the login POST response contains the privacy-policy prompt
string, `_login` fails with the privacy-policy error, whatever else the
response contains (the check runs before the logged-in and flash-error
checks). -/
theorem c4_privacy_precedence (env : Env) (site username password : String)
    (hcred : env.getLoginInfo (netrcMachineOf site) = some (username, password))
    (hpage : is_logged (env.fetchSignInPage site).1 = false)
    (hpriv : hasPrivacyPrompt (responseOf env site username password) = true) :
    (login env false site).result = .error (.privacyPolicy site) := by
  simp [login, hcred, hpage, hpriv]

/-- C4 witness: a fixture response carrying the prompt together with
logged-in markers and a flash-error element still fails with the
privacy-policy error. -/
theorem c4_witness :
    is_logged (responseOf env4 ("x.example") ("u") ("p")) = true ∧
    (env4.getElementByClass ("auth-flash-error")
      (responseOf env4 ("x.example") ("u") ("p"))).isSome = true ∧
    (login env4 false ("x.example")).result = .error (.privacyPolicy ("x.example")) :=
  ⟨by decide, by decide,
   c4_privacy_precedence env4 ("x.example") ("u") ("p") rfl (by decide) (by decide)⟩

/-- C2 counterexample: in `env2` a successful `login` for site `a.example`
sets the single instance flag, and the following `login` for the distinct
site `b.example` returns as a no-op with no credential lookup and no fetch,
contradicting the claimed per-site state. -/
theorem c2_counterexample :
    (login env2 false ("a.example")).logged_in = true ∧
    login env2 ((login env2 false ("a.example")).logged_in) ("b.example") =
      ⟨.ok (), true, []⟩ := by
  decide

/-- C2 amended: login state is kept per extractor instance, not per site —
after any successful flag-setting login for site `a`, a later login for any
site `b` on the same instance is a no-op performing no handshake. -/
theorem c2_amended (env : Env) (a b : String)
    (h : (login env false a).logged_in = true) :
    login env ((login env false a).logged_in) b = ⟨.ok (), true, []⟩ := by
  rw [h, login_of_flag]

/-- C2 amended, witnessed on the fixture environment. -/
theorem c2_amended_witness :
    login env2 ((login env2 false ("a.example")).logged_in) ("b.example") =
      ⟨.ok (), true, []⟩ :=
  c2_amended env2 ("a.example") ("b.example") (by decide)

/-- Any single `_login` call performs at most one network login attempt. -/
theorem postCount_le_one (env : Env) (st : Bool) (site : String) :
    postCount (login env st site).events ≤ 1 := by
  unfold login
  repeat' split
  all_goals simp [postCount, handshakeEvents, isPost, List.filter]

/-- When a `_login` call from the unauthenticated state succeeds, either the
flag is now set or (no credentials were found and) the call performed no
network login attempt. -/
theorem ok_flag_or_nopost (env : Env) (site : String)
    (h : (login env false site).result = .ok ()) :
    (login env false site).logged_in = true ∨
    ((login env false site).logged_in = false ∧
      postCount (login env false site).events = 0) := by
  rcases hc : env.getLoginInfo (netrcMachineOf site) with _ | ⟨u, p⟩
  · right
    simp [login, hc, postCount, isPost, List.filter]
  · cases hp : is_logged (env.fetchSignInPage site).1
    · cases hpr : hasPrivacyPrompt (responseOf env site u p)
      · cases hr : is_logged (responseOf env site u p)
        · rcases hel : env.getElementByClass ("auth-flash-error") (responseOf env site u p) with _ | m
          · simp [login, hc, hp, hpr, hr, hel] at h
          · simp [login, hc, hp, hpr, hr, hel] at h
        · left
          simp [login, hc, hp, hpr, hr]
      · simp [login, hc, hp, hpr] at h
    · left
      simp [login, hc, hp]

/-- C6 amended: when the first `_login` call does not raise, two calls in the
same process perform at most one network login attempt; and once the flag is
set, every later call returns immediately with no credential lookup and no
fetch.  (A first call that raises leaves the flag unset, so a second call
repeats the network attempt — see the counterexample.) -/
theorem c6_amended (env : Env) (site : String)
    (h : (login env false site).result = .ok ()) :
    postCount (login env false site).events +
      postCount (login env ((login env false site).logged_in) site).events ≤ 1 ∧
    login env true site = ⟨.ok (), true, []⟩ := by
  refine ⟨?_, login_of_flag env site⟩
  rcases ok_flag_or_nopost env site h with hf | ⟨hf, hz⟩
  · rw [hf, login_of_flag]
    have h1 := postCount_le_one env false site
    simpa [postCount, isPost, List.filter] using h1
  · rw [hf, hz]
    decide

/-- C6 counterexample: in `env6` the login POST fails with the generic
error, the flag stays unset, and a second call performs a second network
login attempt — two attempts in one process. -/
theorem c6_counterexample :
    1 < postCount (login env6 false ("s.example")).events +
        postCount (login env6 ((login env6 false ("s.example")).logged_in) ("s.example")).events := by
  decide

/-- C6 amended, witnessed on the credential-less fixture environment. -/
theorem c6_witness :
    postCount (login env6b false ("s.example")).events +
      postCount (login env6b ((login env6b false ("s.example")).logged_in) ("s.example")).events ≤ 1 ∧
    login env6b true ("s.example") = ⟨.ok (), true, []⟩ :=
  c6_amended env6b ("s.example") (by decide)

/-- C10: the flag becomes true only when logged-in markers were observed in
a fetched page (sign-in page or POST response); with no stored credentials
the call returns before any fetch with the flag still false and a later call
repeats the credential lookup; and a raised login error leaves the flag
false. -/
theorem c10_flag_discipline (env : Env) (site : String) :
    ((login env false site).logged_in = true →
      is_logged (env.fetchSignInPage site).1 = true ∨
      ∃ u p, env.getLoginInfo (netrcMachineOf site) = some (u, p) ∧
        is_logged (responseOf env site u p) = true) ∧
    (env.getLoginInfo (netrcMachineOf site) = none →
      login env false site = ⟨.ok (), false, [.credLookup (netrcMachineOf site)]⟩ ∧
      NetEvent.credLookup (netrcMachineOf site) ∈
        (login env ((login env false site).logged_in) site).events) ∧
    (∀ e, (login env false site).result = .error e →
      (login env false site).logged_in = false) := by
  rcases hc : env.getLoginInfo (netrcMachineOf site) with _ | ⟨u, p⟩
  · refine ⟨fun hflag => ?_, fun _ => ⟨?_, ?_⟩, fun e _ => ?_⟩
    · simp [login, hc] at hflag
    · simp [login, hc]
    · simp [login, hc]
    · simp [login, hc]
  · cases hp : is_logged (env.fetchSignInPage site).1
    · cases hpr : hasPrivacyPrompt (responseOf env site u p)
      · cases hr : is_logged (responseOf env site u p)
        · rcases hel : env.getElementByClass ("auth-flash-error") (responseOf env site u p) with _ | m
          · refine ⟨fun hflag => ?_, fun hnone => Option.noConfusion hnone, fun e he => ?_⟩
            · simp [login, hc, hp, hpr, hr, hel] at hflag
            · simp [login, hc, hp, hpr, hr, hel]
          · refine ⟨fun hflag => ?_, fun hnone => Option.noConfusion hnone, fun e he => ?_⟩
            · simp [login, hc, hp, hpr, hr, hel] at hflag
            · simp [login, hc, hp, hpr, hr, hel]
        · refine ⟨fun _ => Or.inr ⟨u, p, rfl, hr⟩,
            fun hnone => Option.noConfusion hnone, fun e he => ?_⟩
          simp [login, hc, hp, hpr, hr] at he
      · refine ⟨fun hflag => ?_, fun hnone => Option.noConfusion hnone, fun e he => ?_⟩
        · simp [login, hc, hp, hpr] at hflag
        · simp [login, hc, hp, hpr]
    · refine ⟨fun _ => Or.inl rfl, fun hnone => Option.noConfusion hnone, fun e he => ?_⟩
      simp [login, hc, hp] at he

/-- C10, witnessed on the credential-less fixture environment. -/
theorem c10_witness :
    login env6b false ("s.example") =
      ⟨.ok (), false, [.credLookup (netrcMachineOf ("s.example"))]⟩ ∧
    NetEvent.credLookup (netrcMachineOf ("s.example")) ∈
      (login env6b ((login env6b false ("s.example")).logged_in) ("s.example")).events :=
  (c10_flag_discipline env6b ("s.example")).2.1 rfl

/-- C7 counterexample: five section items of which exactly two lack both
video markers yield only two lecture references, because one marker-bearing
item has no anchor href — not the three references the claim requires. -/
theorem c7_counterexample :
    (items5.filter (fun li => hasVideoMarker li)).length = 3 ∧
    (items5.filter (fun li => !(hasVideoMarker li))).length = 2 ∧
    (courseEntries cenv0 ("x.example") false items5).length = 2 := by
  decide

/-- C7 amended: provided every marker-bearing section item contains an
anchor href, the resolver skips exactly the items lacking both the play-icon
marker and an inline duration, and emits the references of the remaining
items in document order. -/
theorem c7_amended (env : CEnv) (site : String) (prefixed : Bool)
    (items : List String)
    (h : ∀ li ∈ items, hasVideoMarker li = true → (searchHref li).isSome = true) :
    (courseEntries env site prefixed items).map (fun e => e.url) =
      (items.filter (fun li => hasVideoMarker li)).map
        (fun li => applyUrlMark prefixed
          (env.urljoin ("https://" ++ site ++ "/") ((searchHref li).getD ""))) := by
  induction items with
  | nil => rfl
  | cons li rest ih =>
    have hrest : ∀ l ∈ rest, hasVideoMarker l = true → (searchHref l).isSome = true :=
      fun l hl => h l (List.mem_cons_of_mem _ hl)
    cases hm : hasVideoMarker li with
    | false =>
      simpa [courseEntries, entryOf, hm, List.filterMap_cons, List.filter_cons]
        using ih hrest
    | true =>
      obtain ⟨lu, hlu⟩ :=
        Option.isSome_iff_exists.mp (h li (List.mem_cons_self li rest) hm)
      simpa [courseEntries, entryOf, hm, hlu, List.filterMap_cons, List.filter_cons]
        using ih hrest

/-- C7 amended, witnessed at the spec's fixture size: five items, two
lacking both markers, all marker-bearing ones with hrefs, yield exactly
three references in order. -/
theorem c7_witness :
    (courseEntries cenv0 ("x.example") false itemsW5).map (fun e => e.url) =
      (itemsW5.filter (fun li => hasVideoMarker li)).map
        (fun li => applyUrlMark false
          (cenv0.urljoin ("https://" ++ "x.example" ++ "/") ((searchHref li).getD ""))) ∧
    (courseEntries cenv0 ("x.example") false itemsW5).length = 3 :=
  ⟨c7_amended cenv0 ("x.example") false itemsW5 (by decide), by decide⟩

/-- C9: a section item that has no anchor href contributes nothing to the
playlist — the entry list over any surroundings is unchanged by its
presence. -/
theorem c9_no_href_skipped (env : CEnv) (site : String) (prefixed : Bool)
    (pre post : List String) (li : String) (h : searchHref li = none) :
    courseEntries env site prefixed (pre ++ li :: post) =
      courseEntries env site prefixed (pre ++ post) := by
  have hf : entryOf env site prefixed li = none := by
    unfold entryOf
    rw [h]
    split <;> rfl
  simp [courseEntries, List.filterMap_append, List.filterMap_cons, hf]

/-- C9, witnessed: a marker-bearing item with no anchor is silently dropped,
so the playlist is shorter than the number of video-marked items. -/
theorem c9_witness :
    searchHref liB = none ∧ hasVideoMarker liB = true ∧
    courseEntries cenv0 ("x.example") false [liB] = [] := by
  refine ⟨by decide, by decide, ?_⟩
  have h := c9_no_href_skipped cenv0 ("x.example") false [] [] liB (by decide)
  simpa using h

/-- C8: every emitted reference comes from an item whose anchor href was
resolved against the site's base url, carrying the escape marker exactly
when the course url carried it. -/
theorem c8_roundtrip (env : CEnv) (site : String) (prefixed : Bool)
    (items : List String) (e : CourseEntry)
    (h : e ∈ courseEntries env site prefixed items) :
    ∃ li lu, li ∈ items ∧ searchHref li = some lu ∧
      e.url = applyUrlMark prefixed (env.urljoin ("https://" ++ site ++ "/") lu) ∧
      (prefixed = true →
        e.url = urlMarkStr ++ env.urljoin ("https://" ++ site ++ "/") lu) ∧
      (prefixed = false →
        e.url = env.urljoin ("https://" ++ site ++ "/") lu) := by
  rw [courseEntries, List.mem_filterMap] at h
  obtain ⟨li, hmem, hf⟩ := h
  unfold entryOf at hf
  by_cases hm : hasVideoMarker li = true
  · rw [if_pos hm] at hf
    rcases hs : searchHref li with _ | lu
    · rw [hs] at hf
      cases hf
    · rw [hs] at hf
      have he := (Option.some.inj hf).symm
      refine ⟨li, lu, hmem, hs, ?_, ?_, ?_⟩
      · rw [he]
      · intro hp
        rw [he, hp]
        rfl
      · intro hp
        rw [he, hp]
        rfl
  · rw [if_neg hm] at hf
    cases hf

/-- C8, witnessed on a prefixed course url over one fixture item. -/
theorem c8_witness :
    ∃ li lu, li ∈ [liA] ∧ searchHref li = some lu ∧
      entryA.url = applyUrlMark true (cenv0.urljoin ("https://" ++ "x.example" ++ "/") lu) ∧
      (true = true →
        entryA.url = urlMarkStr ++ cenv0.urljoin ("https://" ++ "x.example" ++ "/") lu) ∧
      (true = false →
        entryA.url = cenv0.urljoin ("https://" ++ "x.example" ++ "/") lu) :=
  c8_roundtrip cenv0 ("x.example") true [liA] entryA (by decide)

end Teachable
